import Mathlib

/-
Shallow embedding of the repository's single source module
(src/tools/crossmint_embedded_wallet.ts), which exposes three async
wrapper functions around the Crossmint HTTP wallet API:
createCrossmintWallet, getCrossmintWallet and listCrossmintWallets.

Modelling choices for the environment (the fetch API), which the source
calls but does not define:
  - A call to fetch is modelled by a FetchOutcome value: either the fetch
    promise rejects with a JavaScript error, or it resolves to a response
    with a numeric status whose json() method either throws (unparsable or
    empty body) or yields a parsed JSON value.  The WHATWG fetch spec
    defines response.ok as 200 <= status <= 299.
  - A response body that parses is modelled as a JSON object (an ordered
    list of string-keyed fields), since the source reads named fields off
    it and the remote service returns objects.
  - A thrown JavaScript error is modelled by JsError: a string message
    plus an optional string code property (absent on errors built by the
    source itself via the Error constructor; possibly present on errors
    produced by the network stack).  JavaScript truthiness on the code
    string makes the empty string falsy.
  - Each wrapper function takes the behaviour of its (single) fetch call
    as an argument and returns, besides its result value, the list of
    HTTP requests it issued, so that claims about requests never being
    issued, or about the request URL, are statable.
  - The source's try/catch is embedded by an Except-valued try body and a
    catch combinator that converts a thrown error into the error-shaped
    result object, exactly as the catch blocks in the source do.
-/

namespace Crossmint

/-- JavaScript String.prototype.startsWith, embedded over the character
sequences of the two strings. -/
def strStartsWith (s pat : String) : Bool :=
  List.isPrefixOf pat.toList s.toList

/-- A parsed JSON value, as produced by response.json(). -/
inductive Json where
  | jnull : Json
  | jbool : Bool → Json
  | jnum : Int → Json
  | jstr : String → Json
  | jarr : List Json → Json
  | jobj : List (String × Json) → Json
deriving Repr

/-- A JSON object body: an ordered list of string-keyed fields. -/
abbrev JsObject := List (String × Json)

/-- JavaScript property access on an object: the value of the first field
with the given key, or none (undefined) when absent. -/
def jsLookup : JsObject → String → Option Json
  | [], _ => none
  | (k, v) :: rest, key => if k = key then some v else jsLookup rest key

/-- JavaScript truthiness of a JSON value (null, false, 0 and the empty
string are falsy; arrays and objects are truthy). -/
def Json.truthy : Json → Bool
  | .jnull => false
  | .jbool b => b
  | .jnum n => !(n == 0)
  | .jstr s => !(s == "")
  | .jarr _ => true
  | .jobj _ => true

mutual

/-- JavaScript string coercion of a JSON value, as applied by the Error
constructor to its argument.  The source only ever reaches this on the
message field of an error body; for arrays the JavaScript join of the
coerced elements is used, for objects the usual object placeholder. -/
def Json.toJsString : Json → String
  | .jnull => "null"
  | .jbool b => cond b "true" "false"
  | .jnum n => toString n
  | .jstr s => s
  | .jarr xs => jsonJoin xs
  | .jobj _ => "[object Object]"

/-- Comma-join of coerced array elements (Array.prototype.toString). -/
def jsonJoin : List Json → String
  | [] => ""
  | [x] => Json.toJsString x
  | x :: y :: rest => Json.toJsString x ++ "," ++ jsonJoin (y :: rest)

end

/-- A thrown JavaScript error value: its message string and its optional
code property. -/
structure JsError where
  message : String
  code : Option String
deriving Repr

/-- The behaviour of one fetch call: the promise rejects, or resolves to
a response with the given status whose json() throws or yields a body. -/
inductive FetchOutcome where
  | reject : JsError → FetchOutcome
  | resp : Nat → Except JsError JsObject → FetchOutcome
deriving Repr

/-- An outbound HTTP request as built by the source. -/
structure HttpRequest where
  url : String
  method : String
  headers : List (String × String)
  body : Option String
deriving Repr, DecidableEq

/-- The result object returned by the three wrapper functions.  Fields
other than status are optional: none models an absent or undefined
property of the returned object literal. -/
structure WalletResult where
  status : String
  walletId : Option Json := none
  address : Option Json := none
  wallets : Option Json := none
  message : Option String := none
  code : Option String := none
deriving Repr

/-- response.ok per the WHATWG fetch spec. -/
def responseOk (status : Nat) : Bool :=
  200 ≤ status && status ≤ 299

/-- The template literal the source builds for a non-success status. -/
def httpErrorMessage (status : Nat) : String :=
  "HTTP error! status: " ++ toString status

/-- Truthiness of a named field of an object: false when the field is
absent (undefined) or holds a falsy value. -/
def truthyField (data : JsObject) (key : String) : Bool :=
  match jsLookup data key with
  | some v => v.truthy
  | none => false

/-- The expression errorData.message with a string fallback: the coerced
message field when truthy, the fallback otherwise. -/
def jsMessageOr (errorData : JsObject) (fallback : String) : String :=
  match jsLookup errorData "message" with
  | some v => if v.truthy then v.toJsString else fallback
  | none => fallback

/-- The expression error.code with a string fallback, under JavaScript
truthiness (an absent code or an empty-string code yields the fallback). -/
def codeOr : Option String → String → String
  | some c, fallback => if c = "" then fallback else c
  | none, fallback => fallback

/-- The catch block shared by all three functions: a thrown error becomes
the error-shaped result with the error message and the operation's
fallback code. -/
def catchToResult (fallbackCode : String) : Except JsError WalletResult → WalletResult
  | .ok r => r
  | .error e =>
      { status := "error"
        message := some e.message
        code := some (codeOr e.code fallbackCode) }

/-- The response handling shared by all three functions, inside the try:
a rejected fetch propagates its error; a non-ok response has its JSON
error body read (a json() failure propagates) and a fresh Error is thrown
whose message is the body's message field or the synthesized HTTP error
string; an ok response has its JSON body read (a json() failure
propagates) and mapped to the success result. -/
def handleResponse (fb : FetchOutcome) (mkSuccess : JsObject → WalletResult) :
    Except JsError WalletResult :=
  match fb with
  | .reject e => .error e
  | .resp status body =>
      if !responseOk status then
        match body with
        | .error e => .error e
        | .ok errorData => .error ⟨jsMessageOr errorData (httpErrorMessage status), none⟩
      else
        match body with
        | .error e => .error e
        | .ok data => .ok (mkSuccess data)

/-- An apostrophe character, used inside source message strings. -/
def apos : String := String.singleton (Char.ofNat 39)

/-- The validation message thrown for a malformed linkedUser. -/
def linkedUserErrMsg : String :=
  "linkedUser must start with " ++ apos ++ "email:" ++ apos ++ " or " ++
    apos ++ "id:" ++ apos ++ " followed by the identifier"

/-- The validation message thrown for a malformed API key. -/
def invalidKeyMsg : String := "Invalid Crossmint API key format"

/-- The fixed base URL of the wallets collection endpoint. -/
def walletsUrl : String := "https://staging.crossmint.com/api/v1-alpha2/wallets"

/-- JSON string escaping as applied by JSON.stringify, restricted to the
quote and backslash escapes (the only ones the claims exercise). -/
def jsonEscapeChar (c : Char) : String :=
  if c = Char.ofNat 34 then String.singleton (Char.ofNat 92) ++ String.singleton (Char.ofNat 34)
  else if c = Char.ofNat 92 then String.singleton (Char.ofNat 92) ++ String.singleton (Char.ofNat 92)
  else String.singleton c

/-- JSON string escaping lifted to strings. -/
def jsonEscape (s : String) : String :=
  String.join (s.toList.map jsonEscapeChar)

/-- The JSON.stringify output for the creation request body. -/
def createBodyString (linkedUser : String) : String :=
  "\x7b\"type\":\"solana-mpc-wallet\",\"linkedUser\":\"" ++ jsonEscape linkedUser ++ "\"\x7d"

/-- The POST request built by createCrossmintWallet. -/
def createRequest (linkedUser apiKey : String) : HttpRequest :=
  { url := walletsUrl
    method := "POST"
    headers := [("X-API-KEY", apiKey), ("Content-Type", "application/json")]
    body := some (createBodyString linkedUser) }

/-- The GET request built by getCrossmintWallet: the walletId is spliced
verbatim, unencoded, onto the collection URL plus a slash. -/
def getRequest (walletId apiKey : String) : HttpRequest :=
  { url := walletsUrl ++ "/" ++ walletId
    method := "GET"
    headers := [("X-API-KEY", apiKey), ("Content-Type", "application/json")]
    body := none }

/-- The GET request built by listCrossmintWallets. -/
def listRequest (apiKey : String) : HttpRequest :=
  { url := walletsUrl
    method := "GET"
    headers := [("X-API-KEY", apiKey), ("Content-Type", "application/json")]
    body := none }

/-- The success object literal shared (textually duplicated) by
createCrossmintWallet and getCrossmintWallet: status success, with the
walletId and address properties read off the parsed body. -/
def walletSuccessResult (data : JsObject) : WalletResult :=
  { status := "success"
    walletId := jsLookup data "walletId"
    address := jsLookup data "address" }

/-- The success object literal of listCrossmintWallets: status success,
with the wallets property read off the parsed body. -/
def listSuccessResult (data : JsObject) : WalletResult :=
  { status := "success"
    wallets := jsLookup data "wallets" }

/-- createCrossmintWallet: validate linkedUser, validate the API key,
POST the creation request, shape the response; the catch at the outer
edge converts any thrown error, with fallback code WALLET_CREATION_ERROR.
Returns the result together with the list of requests issued. -/
def createCrossmintWallet (linkedUser apiKey : String) (fb : FetchOutcome) :
    WalletResult × List HttpRequest :=
  if !strStartsWith linkedUser "email:" && !strStartsWith linkedUser "id:" then
    (catchToResult "WALLET_CREATION_ERROR" (.error ⟨linkedUserErrMsg, none⟩), [])
  else if apiKey == "" || !strStartsWith apiKey "sk_" then
    (catchToResult "WALLET_CREATION_ERROR" (.error ⟨invalidKeyMsg, none⟩), [])
  else
    (catchToResult "WALLET_CREATION_ERROR" (handleResponse fb walletSuccessResult),
     [createRequest linkedUser apiKey])

/-- getCrossmintWallet: no validation at all; GET the wallet-by-id
request, shape the response; fallback code WALLET_FETCH_ERROR. -/
def getCrossmintWallet (walletId apiKey : String) (fb : FetchOutcome) :
    WalletResult × List HttpRequest :=
  (catchToResult "WALLET_FETCH_ERROR" (handleResponse fb walletSuccessResult),
   [getRequest walletId apiKey])

/-- listCrossmintWallets: GET the collection request, return the body's
wallets field verbatim on success; fallback code WALLET_LIST_ERROR. -/
def listCrossmintWallets (apiKey : String) (fb : FetchOutcome) :
    WalletResult × List HttpRequest :=
  (catchToResult "WALLET_LIST_ERROR" (handleResponse fb listSuccessResult),
   [listRequest apiKey])

/-- A fetch behaviour that is a failure: a rejected promise, an
unparsable body, or a non-success status. -/
def FetchOutcome.fails : FetchOutcome → Bool
  | .reject _ => true
  | .resp _ (.error _) => true
  | .resp status (.ok _) => !responseOk status

/-- A result is well formed when its status is success, or its status is
error and it carries both a message and a code. -/
def resultWellFormed (r : WalletResult) : Prop :=
  r.status = "success" ∨
    (r.status = "error" ∧ r.message.isSome = true ∧ r.code.isSome = true)

/-- The shape discipline of the two result variants: the status is one of
the two tags; a success result carries no message or code; an error
result carries no walletId, address or wallets. -/
def shapeOk (r : WalletResult) : Prop :=
  (r.status = "success" ∨ r.status = "error") ∧
    (r.status = "success" → r.message = none ∧ r.code = none) ∧
    (r.status = "error" → r.walletId = none ∧ r.address = none ∧ r.wallets = none)

/-- A string starting with sk_ is in particular nonempty. -/
theorem strStartsWith_sk_ne_empty (ak : String) (h : strStartsWith ak "sk_" = true) :
    (ak == "") = false := by
  cases hak : (ak == "") with
  | false => rfl
  | true =>
      have hak2 : ak = "" := eq_of_beq hak
      subst hak2
      exact absurd h (by decide)

/-- Case analysis of the shared try body: the caught error together with
the fallback code determines an error-shaped result, or the fetch did not
fail and the success constructor is applied to the parsed body. -/
theorem catch_handle_cases (fc : String) (mk : JsObject → WalletResult) (fb : FetchOutcome) :
    (∃ e : JsError,
        catchToResult fc (handleResponse fb mk) =
          { status := "error", message := some e.message, code := some (codeOr e.code fc) }) ∨
    (fb.fails = false ∧ ∃ d : JsObject, catchToResult fc (handleResponse fb mk) = mk d) := by
  cases fb with
  | reject e => exact Or.inl ⟨e, rfl⟩
  | resp status body =>
      cases hok : responseOk status with
      | false =>
          cases body with
          | error e => exact Or.inl ⟨e, by simp [handleResponse, hok, catchToResult]⟩
          | ok errorData =>
              exact Or.inl ⟨⟨jsMessageOr errorData (httpErrorMessage status), none⟩,
                by simp [handleResponse, hok, catchToResult]⟩
      | true =>
          cases body with
          | error e => exact Or.inl ⟨e, by simp [handleResponse, hok, catchToResult]⟩
          | ok d =>
              exact Or.inr ⟨by simp [FetchOutcome.fails, hok], d,
                by simp [handleResponse, hok, catchToResult]⟩

/-- The shared try body always yields a well-formed result, and an error
result whenever the fetch behaviour is a failure. -/
theorem catch_handle_wellFormed (fc : String) (mk : JsObject → WalletResult)
    (hmk : ∀ d, (mk d).status = "success") (fb : FetchOutcome) :
    resultWellFormed (catchToResult fc (handleResponse fb mk)) ∧
    (fb.fails = true → (catchToResult fc (handleResponse fb mk)).status = "error") := by
  rcases catch_handle_cases fc mk fb with ⟨e, he⟩ | ⟨hfb, d, hd⟩
  · rw [he]
    exact ⟨Or.inr ⟨rfl, rfl, rfl⟩, fun _ => rfl⟩
  · rw [hd]
    refine ⟨Or.inl (hmk d), fun hcontra => ?_⟩
    rw [hcontra] at hfb
    exact absurd hfb (by simp)

/-- The shared try body always yields a result obeying the two-variant
shape discipline, given that the success constructor does. -/
theorem catch_handle_shapeOk (fc : String) (mk : JsObject → WalletResult)
    (h1 : ∀ d, (mk d).status = "success") (h2 : ∀ d, (mk d).message = none)
    (h3 : ∀ d, (mk d).code = none) (fb : FetchOutcome) :
    shapeOk (catchToResult fc (handleResponse fb mk)) := by
  rcases catch_handle_cases fc mk fb with ⟨e, he⟩ | ⟨_, d, hd⟩
  · rw [he]
    refine ⟨Or.inr rfl, fun hs => ?_, fun _ => ⟨rfl, rfl, rfl⟩⟩
    simp at hs
  · rw [hd]
    refine ⟨Or.inl (h1 d), fun _ => ⟨h2 d, h3 d⟩, fun he2 => ?_⟩
    rw [h1 d] at he2
    exact absurd he2 (by decide)

/-- C1: for every input and every behaviour of the fetch call, each of
createCrossmintWallet, getCrossmintWallet and listCrossmintWallets
returns a result whose status is success, or whose status is error and
which then carries both a message and a code; and whenever the fetch
behaviour is a failure (rejected promise, unparsable body, or non-success
status) the returned result has status error.  No exception escapes: the
catch at the outer edge converts every thrown condition. -/
theorem ops_never_throw (linkedUser apiKey walletId : String) (fb : FetchOutcome) :
    (resultWellFormed (createCrossmintWallet linkedUser apiKey fb).1 ∧
      resultWellFormed (getCrossmintWallet walletId apiKey fb).1 ∧
      resultWellFormed (listCrossmintWallets apiKey fb).1) ∧
    (fb.fails = true →
      (createCrossmintWallet linkedUser apiKey fb).1.status = "error" ∧
      (getCrossmintWallet walletId apiKey fb).1.status = "error" ∧
      (listCrossmintWallets apiKey fb).1.status = "error") := by
  have hw : ∀ d, (walletSuccessResult d).status = "success" := fun _ => rfl
  have hl : ∀ d, (listSuccessResult d).status = "success" := fun _ => rfl
  have hget := catch_handle_wellFormed "WALLET_FETCH_ERROR" walletSuccessResult hw fb
  have hlist := catch_handle_wellFormed "WALLET_LIST_ERROR" listSuccessResult hl fb
  have hcreate : resultWellFormed (createCrossmintWallet linkedUser apiKey fb).1 ∧
      (fb.fails = true → (createCrossmintWallet linkedUser apiKey fb).1.status = "error") := by
    cases h1 : (!strStartsWith linkedUser "email:" && !strStartsWith linkedUser "id:") with
    | true =>
        simp only [createCrossmintWallet, h1]
        exact ⟨Or.inr ⟨rfl, rfl, rfl⟩, fun _ => rfl⟩
    | false =>
        cases h2 : (apiKey == "" || !strStartsWith apiKey "sk_") with
        | true =>
            simp only [createCrossmintWallet, h1, h2]
            exact ⟨Or.inr ⟨rfl, rfl, rfl⟩, fun _ => rfl⟩
        | false =>
            simp only [createCrossmintWallet, h1, h2]
            exact catch_handle_wellFormed "WALLET_CREATION_ERROR" walletSuccessResult hw fb
  exact ⟨⟨hcreate.1, hget.1, hlist.1⟩, fun hf => ⟨hcreate.2 hf, hget.2 hf, hlist.2 hf⟩⟩

/-- C1 witness: a concrete rejected fetch yields the guarantees at a
concrete input. -/
theorem ops_never_throw_witness :
    (resultWellFormed
        (createCrossmintWallet "email:a" "sk_k" (.reject ⟨"boom", none⟩)).1 ∧
      resultWellFormed (getCrossmintWallet "w1" "sk_k" (.reject ⟨"boom", none⟩)).1 ∧
      resultWellFormed (listCrossmintWallets "sk_k" (.reject ⟨"boom", none⟩)).1) ∧
    ((FetchOutcome.reject ⟨"boom", none⟩).fails = true →
      (createCrossmintWallet "email:a" "sk_k" (.reject ⟨"boom", none⟩)).1.status = "error" ∧
      (getCrossmintWallet "w1" "sk_k" (.reject ⟨"boom", none⟩)).1.status = "error" ∧
      (listCrossmintWallets "sk_k" (.reject ⟨"boom", none⟩)).1.status = "error") :=
  ops_never_throw "email:a" "sk_k" "w1" (.reject ⟨"boom", none⟩)

/-- C2: for every linkedUser starting with neither the email: nor the id:
prefix, createCrossmintWallet returns an error result whose message is
exactly the linkedUser validation text, with the creation fallback code,
and issues no request at all. -/
theorem createWallet_rejects_bad_linkedUser (linkedUser apiKey : String) (fb : FetchOutcome)
    (h1 : strStartsWith linkedUser "email:" = false)
    (h2 : strStartsWith linkedUser "id:" = false) :
    createCrossmintWallet linkedUser apiKey fb =
      ({ status := "error", message := some linkedUserErrMsg,
         code := some "WALLET_CREATION_ERROR" }, []) := by
  simp [createCrossmintWallet, h1, h2, catchToResult, codeOr]

/-- C2 witness: the linkedUser string foo passes neither prefix check and
is rejected without a request. -/
theorem createWallet_rejects_bad_linkedUser_witness :
    createCrossmintWallet "foo" "sk_test" (.resp 200 (.ok [])) =
      ({ status := "error", message := some linkedUserErrMsg,
         code := some "WALLET_CREATION_ERROR" }, []) :=
  createWallet_rejects_bad_linkedUser "foo" "sk_test" (.resp 200 (.ok []))
    (by decide) (by decide)

/-- C3 counterexample: with a valid linkedUser and the empty API key,
createCrossmintWallet returns the message Invalid Crossmint API key
format, not the message Invalid API key format claimed by the spec. -/
theorem createWallet_badKey_message_cex :
    (createCrossmintWallet "email:a" "" (.reject ⟨"boom", none⟩)).1.message =
        some "Invalid Crossmint API key format" ∧
    (createCrossmintWallet "email:a" "" (.reject ⟨"boom", none⟩)).1.message ≠
        some "Invalid API key format" := by
  decide

/-- C3 amended: for every linkedUser passing the prefix check and every
apiKey that is empty or does not start with sk_, createCrossmintWallet
returns an error result whose message is exactly Invalid Crossmint API
key format, with the creation fallback code, and issues no request. -/
theorem createWallet_rejects_bad_apiKey (linkedUser apiKey : String) (fb : FetchOutcome)
    (h1 : (strStartsWith linkedUser "email:" || strStartsWith linkedUser "id:") = true)
    (h2 : (apiKey == "" || !strStartsWith apiKey "sk_") = true) :
    createCrossmintWallet linkedUser apiKey fb =
      ({ status := "error", message := some invalidKeyMsg,
         code := some "WALLET_CREATION_ERROR" }, []) := by
  have h1a : (!strStartsWith linkedUser "email:" && !strStartsWith linkedUser "id:") = false := by
    cases ha : strStartsWith linkedUser "email:" with
    | true => simp
    | false =>
        cases hb : strStartsWith linkedUser "id:" with
        | true => simp
        | false => rw [ha, hb] at h1; exact absurd h1 (by simp)
  simp [createCrossmintWallet, h1a, h2, catchToResult, codeOr]

/-- C3 witness: the empty API key is rejected with the amended message
and no request. -/
theorem createWallet_rejects_bad_apiKey_witness :
    createCrossmintWallet "email:a" "" (.resp 200 (.ok [])) =
      ({ status := "error", message := some invalidKeyMsg,
         code := some "WALLET_CREATION_ERROR" }, []) :=
  createWallet_rejects_bad_apiKey "email:a" "" (.resp 200 (.ok []))
    (by decide) (by decide)

/-- C4: for every non-success status and every JSON error body, with
valid inputs, createCrossmintWallet returns an error result with the
creation fallback code; its message is the error body's message field
when that field is a truthy string, and the synthesized HTTP error text
when the field is absent or falsy. -/
theorem createWallet_httpError_message (linkedUser apiKey : String) (status : Nat)
    (errorData : JsObject)
    (h1 : (strStartsWith linkedUser "email:" || strStartsWith linkedUser "id:") = true)
    (h2 : strStartsWith apiKey "sk_" = true)
    (h3 : responseOk status = false) :
    (createCrossmintWallet linkedUser apiKey (.resp status (.ok errorData))).1.status =
        "error" ∧
    (createCrossmintWallet linkedUser apiKey (.resp status (.ok errorData))).1.code =
        some "WALLET_CREATION_ERROR" ∧
    (∀ s : String, jsLookup errorData "message" = some (.jstr s) → (s == "") = false →
        (createCrossmintWallet linkedUser apiKey (.resp status (.ok errorData))).1.message =
          some s) ∧
    (truthyField errorData "message" = false →
        (createCrossmintWallet linkedUser apiKey (.resp status (.ok errorData))).1.message =
          some (httpErrorMessage status)) := by
  have h1a : (!strStartsWith linkedUser "email:" && !strStartsWith linkedUser "id:") = false := by
    cases ha : strStartsWith linkedUser "email:" with
    | true => simp
    | false =>
        cases hb : strStartsWith linkedUser "id:" with
        | true => simp
        | false => rw [ha, hb] at h1; exact absurd h1 (by simp)
  have h2a : (apiKey == "" || !strStartsWith apiKey "sk_") = false := by
    rw [strStartsWith_sk_ne_empty apiKey h2, h2]
    rfl
  have hres : (createCrossmintWallet linkedUser apiKey (.resp status (.ok errorData))).1 =
      { status := "error",
        message := some (jsMessageOr errorData (httpErrorMessage status)),
        code := some "WALLET_CREATION_ERROR" } := by
    simp [createCrossmintWallet, h1a, h2a, handleResponse, h3, catchToResult, codeOr]
  refine ⟨by rw [hres], by rw [hres], ?_, ?_⟩
  · intro s hl hs
    rw [hres]
    simp [jsMessageOr, hl, Json.truthy, hs, Json.toJsString]
  · intro ht
    rw [hres]
    cases hml : jsLookup errorData "message" with
    | none => simp [jsMessageOr, hml]
    | some v =>
        have hv : v.truthy = false := by
          simp [truthyField, hml] at ht
          exact ht
        simp [jsMessageOr, hml, hv]

/-- C4 witness: a 400 response with the message bad request yields that
message with the creation fallback code. -/
theorem createWallet_httpError_message_witness :
    (createCrossmintWallet "email:a@b.com" "sk_test"
        (.resp 400 (.ok [("message", .jstr "bad request")]))).1.status = "error" ∧
    (createCrossmintWallet "email:a@b.com" "sk_test"
        (.resp 400 (.ok [("message", .jstr "bad request")]))).1.code =
      some "WALLET_CREATION_ERROR" ∧
    (createCrossmintWallet "email:a@b.com" "sk_test"
        (.resp 400 (.ok [("message", .jstr "bad request")]))).1.message =
      some "bad request" := by
  have h := createWallet_httpError_message "email:a@b.com" "sk_test" 400
    [("message", .jstr "bad request")] (by decide) (by decide) (by decide)
  exact ⟨h.1, h.2.1, h.2.2.1 "bad request" rfl (by decide)⟩

/-- C5: for every success-status response with a JSON body, with valid
inputs, createCrossmintWallet and getCrossmintWallet return a success
result whose walletId and address are exactly the walletId and address
properties of the parsed body; an absent property passes through as
undefined (none) rather than causing an error result. -/
theorem create_get_success_payload (linkedUser apiKey walletId : String) (status : Nat)
    (data : JsObject)
    (h1 : (strStartsWith linkedUser "email:" || strStartsWith linkedUser "id:") = true)
    (h2 : strStartsWith apiKey "sk_" = true)
    (h3 : responseOk status = true) :
    (createCrossmintWallet linkedUser apiKey (.resp status (.ok data))).1 =
      { status := "success", walletId := jsLookup data "walletId",
        address := jsLookup data "address" } ∧
    (getCrossmintWallet walletId apiKey (.resp status (.ok data))).1 =
      { status := "success", walletId := jsLookup data "walletId",
        address := jsLookup data "address" } := by
  have h1a : (!strStartsWith linkedUser "email:" && !strStartsWith linkedUser "id:") = false := by
    cases ha : strStartsWith linkedUser "email:" with
    | true => simp
    | false =>
        cases hb : strStartsWith linkedUser "id:" with
        | true => simp
        | false => rw [ha, hb] at h1; exact absurd h1 (by simp)
  have h2a : (apiKey == "" || !strStartsWith apiKey "sk_") = false := by
    rw [strStartsWith_sk_ne_empty apiKey h2, h2]
    rfl
  constructor
  · simp [createCrossmintWallet, h1a, h2a, handleResponse, h3, catchToResult,
      walletSuccessResult]
  · simp [getCrossmintWallet, handleResponse, h3, catchToResult, walletSuccessResult]

/-- C5 witness: a 200 response carrying walletId w1 and address addr1
yields exactly those fields, and a 200 response with an empty body
yields a success result with both fields undefined. -/
theorem create_get_success_payload_witness :
    (createCrossmintWallet "email:a@b.com" "sk_test"
        (.resp 200 (.ok [("walletId", .jstr "w1"), ("address", .jstr "addr1")]))).1 =
      { status := "success", walletId := some (.jstr "w1"),
        address := some (.jstr "addr1") } ∧
    (getCrossmintWallet "w1" "sk_test" (.resp 200 (.ok []))).1 =
      { status := "success", walletId := none, address := none } := by
  constructor
  · rw [(create_get_success_payload "email:a@b.com" "sk_test" "w1" 200
      [("walletId", .jstr "w1"), ("address", .jstr "addr1")]
      (by decide) (by decide) (by decide)).1]
    rfl
  · rw [(create_get_success_payload "email:a@b.com" "sk_test" "w1" 200 []
      (by decide) (by decide) (by decide)).2]
    rfl

/-- C6 counterexample: for an HTTP 500 response whose body is unparsable
(json() throws a SyntaxError, modelled with the usual empty-body parse
message), getCrossmintWallet returns the parse failure message, not the
synthesized HTTP error text the claim states. -/
theorem getWallet_http500_unparsable_cex :
    (getCrossmintWallet "w1" "sk_test"
        (.resp 500 (.error ⟨"Unexpected end of JSON input", none⟩))).1.message =
      some "Unexpected end of JSON input" ∧
    (getCrossmintWallet "w1" "sk_test"
        (.resp 500 (.error ⟨"Unexpected end of JSON input", none⟩))).1.message ≠
      some "HTTP error! status: 500" := by
  decide

/-- C6 amended: for an HTTP 500 response whose body parses as JSON
without a truthy message field, getCrossmintWallet returns an error
result whose message is exactly the synthesized HTTP error text for 500;
when the body is unparsable or empty, so that json() throws, the
returned message is the parse failure message instead. -/
theorem getWallet_http500_message (walletId apiKey : String) (data : JsObject) (e : JsError)
    (h : truthyField data "message" = false) :
    (getCrossmintWallet walletId apiKey (.resp 500 (.ok data))).1.message =
      some "HTTP error! status: 500" ∧
    (getCrossmintWallet walletId apiKey (.resp 500 (.error e))).1.message =
      some e.message := by
  have hok : responseOk 500 = false := by decide
  constructor
  · cases hml : jsLookup data "message" with
    | none =>
        simp [getCrossmintWallet, handleResponse, hok, catchToResult, jsMessageOr, hml]
        decide
    | some v =>
        have hv : v.truthy = false := by
          simp [truthyField, hml] at h
          exact h
        simp [getCrossmintWallet, handleResponse, hok, catchToResult, jsMessageOr, hml, hv]
        decide
  · simp [getCrossmintWallet, handleResponse, hok, catchToResult]

/-- C6 witness: a 500 response whose JSON body is the empty object gets
the synthesized text, and one whose body fails to parse gets the parse
failure message. -/
theorem getWallet_http500_message_witness :
    (getCrossmintWallet "w1" "sk_test" (.resp 500 (.ok []))).1.message =
      some "HTTP error! status: 500" ∧
    (getCrossmintWallet "w1" "sk_test"
        (.resp 500 (.error ⟨"boom", none⟩))).1.message = some "boom" :=
  getWallet_http500_message "w1" "sk_test" [] ⟨"boom", none⟩ (by decide)

/-- C7: for every success-status response with a JSON body,
listCrossmintWallets returns a success result whose wallets field is
exactly the wallets property of the parsed body, the records and their
order preserved verbatim. -/
theorem listWallets_success_payload (apiKey : String) (status : Nat) (data : JsObject)
    (h : responseOk status = true) :
    (listCrossmintWallets apiKey (.resp status (.ok data))).1 =
      { status := "success", wallets := jsLookup data "wallets" } := by
  simp [listCrossmintWallets, handleResponse, h, catchToResult, listSuccessResult]

/-- C7 witness: a 200 response with two wallet records yields exactly
those records in the same order. -/
theorem listWallets_success_payload_witness :
    (listCrossmintWallets "sk_test"
        (.resp 200 (.ok [("wallets",
          .jarr [.jobj [("walletId", .jstr "w1")],
                 .jobj [("walletId", .jstr "w2")]])]))).1 =
      { status := "success",
        wallets := some (.jarr [.jobj [("walletId", .jstr "w1")],
                                .jobj [("walletId", .jstr "w2")]]) } := by
  rw [listWallets_success_payload "sk_test" 200
    [("wallets", .jarr [.jobj [("walletId", .jstr "w1")],
      .jobj [("walletId", .jstr "w2")]])] (by decide)]
  rfl

/-- C8: getCrossmintWallet performs no local validation: for every
walletId and apiKey, including the empty string and arbitrary shapes, it
issues exactly its one HTTP request, and its result coincides with the
result at any other walletId and apiKey under the same fetch behaviour,
so the result is determined solely by the response or transport
behaviour. -/
theorem getWallet_no_validation (walletId apiKey otherId otherKey : String)
    (fb : FetchOutcome) :
    (getCrossmintWallet walletId apiKey fb).2 = [getRequest walletId apiKey] ∧
    (getCrossmintWallet walletId apiKey fb).1 =
      (getCrossmintWallet otherId otherKey fb).1 :=
  ⟨rfl, rfl⟩

/-- C9: for every input and fetch behaviour, each result of the three
operations has status success or error, a success result carries no
message and no code, and an error result carries no walletId, address or
wallets. -/
theorem results_two_variant_shape (linkedUser apiKey walletId : String) (fb : FetchOutcome) :
    shapeOk (createCrossmintWallet linkedUser apiKey fb).1 ∧
    shapeOk (getCrossmintWallet walletId apiKey fb).1 ∧
    shapeOk (listCrossmintWallets apiKey fb).1 := by
  have hw1 : ∀ d, (walletSuccessResult d).status = "success" := fun _ => rfl
  have hw2 : ∀ d, (walletSuccessResult d).message = none := fun _ => rfl
  have hw3 : ∀ d, (walletSuccessResult d).code = none := fun _ => rfl
  have hl1 : ∀ d, (listSuccessResult d).status = "success" := fun _ => rfl
  have hl2 : ∀ d, (listSuccessResult d).message = none := fun _ => rfl
  have hl3 : ∀ d, (listSuccessResult d).code = none := fun _ => rfl
  refine ⟨?_, catch_handle_shapeOk _ _ hw1 hw2 hw3 fb, catch_handle_shapeOk _ _ hl1 hl2 hl3 fb⟩
  cases h1 : (!strStartsWith linkedUser "email:" && !strStartsWith linkedUser "id:") with
  | true =>
      simp only [createCrossmintWallet, h1]
      exact ⟨Or.inr rfl, fun hs => by simp [catchToResult] at hs, fun _ => ⟨rfl, rfl, rfl⟩⟩
  | false =>
      cases h2 : (apiKey == "" || !strStartsWith apiKey "sk_") with
      | true =>
          simp only [createCrossmintWallet, h1, h2]
          exact ⟨Or.inr rfl, fun hs => by simp [catchToResult] at hs, fun _ => ⟨rfl, rfl, rfl⟩⟩
      | false =>
          simp only [createCrossmintWallet, h1, h2]
          exact catch_handle_shapeOk _ _ hw1 hw2 hw3 fb

/-- C9 witness: the shape discipline at one success behaviour and
concrete inputs. -/
theorem results_two_variant_shape_witness :
    shapeOk (createCrossmintWallet "email:a" "sk_k" (.resp 200 (.ok []))).1 ∧
    shapeOk (getCrossmintWallet "w1" "sk_k" (.resp 200 (.ok []))).1 ∧
    shapeOk (listCrossmintWallets "sk_k" (.resp 200 (.ok []))).1 :=
  results_two_variant_shape "email:a" "sk_k" "w1" (.resp 200 (.ok []))

/-- C10: getCrossmintWallet splices the walletId verbatim and unencoded
onto the wallets collection URL plus a slash; in particular the empty
walletId addresses the collection URL with a trailing slash, and slash or
query characters in the walletId appear verbatim, changing the addressed
path. -/
theorem getWallet_url_concatenation (walletId apiKey : String) (fb : FetchOutcome) :
    ((getCrossmintWallet walletId apiKey fb).2.map HttpRequest.url) =
      ["https://staging.crossmint.com/api/v1-alpha2/wallets/" ++ walletId] ∧
    ((getCrossmintWallet "" apiKey fb).2.map HttpRequest.url) =
      ["https://staging.crossmint.com/api/v1-alpha2/wallets/"] ∧
    ((getCrossmintWallet "w/../x?q=1" apiKey fb).2.map HttpRequest.url) =
      ["https://staging.crossmint.com/api/v1-alpha2/wallets/w/../x?q=1"] :=
  ⟨rfl, rfl, rfl⟩

end Crossmint
